import Mathlib

/-!
# A shallow embedding of fetcher-ts's response-dispatch engine

This development models the class-based `Fetcher` of `src/fetcher.ts`
(the builder with a mutable handler `Map`, an optional `restHandler`
fallback thunk, the `map` functor and the `runUnsafe` dispatch loop)
together with the body-extraction choice of `src/vNext/fetcher.ts`.

JavaScript is dynamically typed and the source erases its type-level
bookkeeping with `unsafeCoerce`, so runtime values are modelled by a
single type parameter `V` (the universe of JS values, including thrown
values), and io-ts validation errors by a parameter `E`.  Fallible JS
computations (a throwing handler, `response.json()`, the injected
`fetch`) are modelled with `Except`.
-/

namespace FetcherTs

/-- One registered handler pair, as stored by `Fetcher.handle`
(`fetcher.ts:293-301`): the `transform` for the decoded body (which, being
caller-supplied JS code, may throw — modelled by `Except V`), and the
optional io-ts `codec`, modelled by its `decode` function which either
fails with a list of validation errors or succeeds with the decoded
(possibly coerced) value. -/
structure Entry (V E : Type) where
  transform : V → Except V V
  codec : Option (V → Except (List E) V)

/-- The registration state of a `Fetcher` builder (`fetcher.ts:275-283`):
the handler `Map` (a JS `Map` preserves insertion order and keeps at most
one value per key; modelled as an association list manipulated only
through `setEntry`), and the optional fallback thunk `restHandler` set by
`discardRest` (`fetcher.ts:303-307`). -/
structure Fetcher (V E : Type) where
  handlers : List (Nat × Entry V E)
  restHandler : Option (Unit → V)

/-- `Map.prototype.get`: first (and, for lists built via `setEntry`, only)
entry stored under `code`. -/
def getEntry {V E : Type} : List (Nat × Entry V E) → Nat → Option (Entry V E)
  | [], _ => none
  | (c, e) :: t, code => if c = code then some e else getEntry t code

/-- `Map.prototype.set`: update the value stored under `code` in place if
the key is present (keeping its position), otherwise append the new pair
at the end. -/
def setEntry {V E : Type} : List (Nat × Entry V E) → Nat → Entry V E → List (Nat × Entry V E)
  | [], code, e => [(code, e)]
  | (c, e') :: t, code, e => if c = code then (code, e) :: t else (c, e') :: setEntry t code e

/-- `Fetcher.handle(code, handler, codec?)` (`fetcher.ts:293-301`):
`this.handlers.set(code, [handler, codec])`; `restHandler` untouched. -/
def Fetcher.handle {V E : Type} (F : Fetcher V E) (code : Nat)
    (transform : V → Except V V) (codec : Option (V → Except (List E) V)) : Fetcher V E :=
  { F with handlers := setEntry F.handlers code ⟨transform, codec⟩ }

/-- `Fetcher.discardRest(restHandler)` (`fetcher.ts:303-307`). -/
def Fetcher.discardRest {V E : Type} (F : Fetcher V E) (rest : Unit → V) : Fetcher V E :=
  { F with restHandler := some rest }

/-- The per-entry rewrite performed by `Fetcher.map`
(`fetcher.ts:286-288`): the stored pair `[handler, codec]` becomes
`[flow(handler, f), codec]` — `f` is applied after the old transform
when it returns normally, and the codec component is kept as is. -/
def mapEntry {V E : Type} (f : V → V) (e : Entry V E) : Entry V E :=
  { transform := fun v => Except.map f (e.transform v), codec := e.codec }

/-- `Fetcher.map(f)` (`fetcher.ts:285-291`): the `for` loop re-`set`s
every key of `this.handlers` to its rewritten pair (each key is visited
exactly once and keeps its position, so the loop is a pointwise map over
the entries).  The source touches nothing else: in particular
`restHandler` is left exactly as it was. -/
def Fetcher.map {V E : Type} (f : V → V) (F : Fetcher V E) : Fetcher V E :=
  { handlers := F.handlers.map (fun p => (p.1, mapEntry f p.2)),
    restHandler := F.restHandler }

/-- The error taxonomy of the dispatcher.  `runUnsafe` rejects through
four distinct code paths: the verbatim re-rejection of the injected
`fetch`'s failure (`fetcher.ts:360-362`), `JsonDeserializationError`
(`fetcher.ts:346-350`), the `Handler side error` wrapper
(`fetcher.ts:343-345`) and `HandlerNotSetError` whose message
interpolates the unresolved status (`fetcher.ts:357-359`).
Modelled from the spec: the `HandlerNotSetError` and
`JsonDeserializationError` classes are declared in `src/errors.ts`,
which is not part of the provided sources; per the spec's error taxonomy
(§7) they are distinct error kinds, carrying the offending status code
and the raw parse cause respectively, so the four kinds are modelled as
the four constructors of an inductive type. -/
inductive RunError (V : Type) where
  | transport (cause : V)
  | jsonDeserialization (cause : V)
  | handlerExecution (cause : V)
  | handlerNotSet (status : Nat)
deriving DecidableEq

/-- The response descriptor as consumed by `runUnsafe`: the numeric
`status`, and the outcome that `await response.json()` would produce if
the body were read (`.error` when the body is not valid JSON). -/
structure Resp (V : Type) where
  status : Nat
  jsonBody : Except V V

/-- `Fetcher.runUnsafe` (`fetcher.ts:316-363`), with the outcome of
`await this.fetch(this.input, this.init)` passed in as `fetchResult`:

* fetch rejected → the outer `catch` re-rejects the cause verbatim;
* handler found → read the body (`response.json()`, `fetcher.ts:327`;
  failure rejects with `JsonDeserializationError`), run the transform
  (a throw rejects with the `Handler side error` wrapper), then, when a
  codec is present, fold `codec.decode(to)`: failure yields
  `[to, some(errors)]`, success yields `[res, none]`; without a codec
  the result is `[to, none]`;
* no handler → `restHandler` if set (the body is never read on this
  path), otherwise reject with `HandlerNotSetError(status)`. -/
def runUnsafe {V E : Type} (F : Fetcher V E) (fetchResult : Except V (Resp V)) :
    Except (RunError V) (V × Option (List E)) :=
  match fetchResult with
  | .error cause => .error (.transport cause)
  | .ok resp =>
    match getEntry F.handlers resp.status with
    | some entry =>
      match resp.jsonBody with
      | .error jsonError => .error (.jsonDeserialization jsonError)
      | .ok body =>
        match entry.transform body with
        | .error cause => .error (.handlerExecution cause)
        | .ok out =>
          match entry.codec with
          | some dec =>
            match dec out with
            | .error errors => .ok (out, some errors)
            | .ok res => .ok (res, none)
          | none => .ok (out, none)
    | none =>
      match F.restHandler with
      | some rest => .ok (rest (), none)
      | none => .error (.handlerNotSet resp.status)

/-! ## Body-extraction choice of `vNext/fetcher.ts` -/

/-- Does the character list `s` start with the character list `p`? -/
def charsStart : List Char → List Char → Bool
  | _, [] => true
  | [], _ :: _ => false
  | a :: s, b :: p => a = b && charsStart s p

/-- Does the character list `s` contain `p` as a contiguous substring? -/
def charsHave : List Char → List Char → Bool
  | [], p => p.isEmpty
  | a :: s, p => charsStart (a :: s) p || charsHave s p

/-- JS `s.includes('application/json')`. -/
def containsJson (s : String) : Bool :=
  charsHave s.data "application/json".data

/-- The condition actually evaluated by the default extractor of
`vNext/fetcher.ts:151-154`:
`contentType?.includes('application/json') !== undefined`, where
`contentType` is `response.headers.get('content-type')` (`null` when the
header is absent).  Optional chaining yields `undefined` exactly when
`contentType` is `null`, so the `!== undefined` comparison is `true`
whenever the header is present, regardless of the `includes` result. -/
def vNextUsesJson (contentType : Option String) : Bool :=
  (contentType.map containsJson).isSome

/-- Modelled from the spec: the content-type–driven extraction strategy
the spec prescribes for the default extractor — parse as JSON exactly
when the response declares a JSON content type, otherwise treat the body
as raw text. -/
def specUsesJson (contentType : Option String) : Bool :=
  match contentType with
  | some s => containsJson s
  | none => false


/-! ## Concrete fixtures (JS values and io-ts errors both modelled by `Nat`) -/

/-- An identity transform that never throws. -/
def idT : Nat → Except Nat Nat := fun v => .ok v

/-- A codec whose decode succeeds, returning a coerced value `v + 100`. -/
def okCodec : Nat → Except (List Nat) Nat := fun v => .ok (v + 100)

/-- A codec whose decode always fails with the single validation error `7`. -/
def badCodec : Nat → Except (List Nat) Nat := fun _ => .error [7]

/-- A handler entry with no codec. -/
def entryPlain : Entry Nat Nat := ⟨idT, none⟩

/-- A handler entry with an always-succeeding codec. -/
def entryOk : Entry Nat Nat := ⟨idT, some okCodec⟩

/-- A handler entry with an always-failing codec. -/
def entryBad : Entry Nat Nat := ⟨idT, some badCodec⟩

/-- A handler entry whose transform throws the value `13`. -/
def entryThrow : Entry Nat Nat := ⟨fun _ => .error 13, none⟩

/-- A builder with a single plain handler for status 200 and no fallback. -/
def Fplain : Fetcher Nat Nat := ⟨[(200, entryPlain)], none⟩

/-- A builder with a single validated (always-succeeding codec) handler for 200. -/
def Fok : Fetcher Nat Nat := ⟨[(200, entryOk)], none⟩

/-- A builder with a single validated (always-failing codec) handler for 200. -/
def Fbad : Fetcher Nat Nat := ⟨[(200, entryBad)], none⟩

/-- A builder with a throwing handler for status 200. -/
def Fthrow : Fetcher Nat Nat := ⟨[(200, entryThrow)], none⟩

/-- A builder with one handler for 200 and a fallback returning `42`. -/
def Ffall : Fetcher Nat Nat := ⟨[(200, entryPlain)], some (fun _ => 42)⟩

/-- A builder with no handlers and a fallback returning `0`. -/
def Frest0 : Fetcher Nat Nat := ⟨[], some (fun _ => 0)⟩

/-- A response with status 200 and JSON body `5`. -/
def resp200 : Resp Nat := ⟨200, .ok 5⟩

/-! ## Helper lemmas -/

theorem mapEntry_comp {V E : Type} (f g : V → V) (e : Entry V E) :
    mapEntry g (mapEntry f e) = mapEntry (fun x => g (f x)) e := by
  have ht : (fun v => Except.map g (Except.map f (e.transform v)))
      = fun v => Except.map (fun x => g (f x)) (e.transform v) := by
    funext v; cases e.transform v <;> rfl
  simp [mapEntry, ht]

theorem fetcher_map_map {V E : Type} (f g : V → V) (F : Fetcher V E) :
    Fetcher.map g (Fetcher.map f F) = Fetcher.map (fun x => g (f x)) F := by
  unfold Fetcher.map
  simp [List.map_map, Function.comp, mapEntry_comp]

theorem setEntry_setEntry {V E : Type} (l : List (Nat × Entry V E)) (c : Nat)
    (e1 e2 : Entry V E) : setEntry (setEntry l c e1) c e2 = setEntry l c e2 := by
  induction l with
  | nil => simp [setEntry]
  | cons p t ih =>
    by_cases h : p.1 = c
    · simp [setEntry, h]
    · simp [setEntry, h, ih]

theorem getEntry_setEntry_self {V E : Type} (l : List (Nat × Entry V E)) (c : Nat)
    (e : Entry V E) : getEntry (setEntry l c e) c = some e := by
  induction l with
  | nil => simp [setEntry, getEntry]
  | cons p t ih =>
    by_cases h : p.1 = c
    · simp [setEntry, getEntry, h]
    · simp [setEntry, getEntry, h, ih]

/-! ## Claim theorems -/

/-- Claim C1: for every dispatch that resolves a handler and whose body
parse and transform succeed — with no codec registered the result is
`(transform output, no validation errors)`; with a codec whose decode
succeeds the result is `(the validator's returned value, no validation
errors)`; with a codec whose decode fails (with a non-empty error list,
as the validator contract guarantees) the dispatch still succeeds with
`(the original unvalidated transform output, that non-empty error
list)`. -/
theorem dispatch_validation_outcomes {V E : Type} (F : Fetcher V E) (resp : Resp V)
    (entry : Entry V E) (body out : V)
    (hres : getEntry F.handlers resp.status = some entry)
    (hbody : resp.jsonBody = .ok body)
    (htr : entry.transform body = .ok out) :
    (entry.codec = none → runUnsafe F (.ok resp) = .ok (out, none)) ∧
    (∀ dec res, entry.codec = some dec → dec out = .ok res →
      runUnsafe F (.ok resp) = .ok (res, none)) ∧
    (∀ dec e es, entry.codec = some dec → dec out = .error (e :: es) →
      runUnsafe F (.ok resp) = .ok (out, some (e :: es)) ∧ (e :: es) ≠ ([] : List E)) := by
  refine ⟨fun hc => ?_, fun dec res hc hd => ?_, fun dec e es hc hd => ⟨?_, by simp⟩⟩ <;>
    simp [runUnsafe, hres, hbody, htr, hc]
  · rw [hd]
  · rw [hd]

/-- Witness for C1: all three codec branches evaluated on concrete builders. -/
theorem dispatch_validation_outcomes_witness :
    runUnsafe Fplain (.ok resp200) = .ok (5, none) ∧
    runUnsafe Fok (.ok resp200) = .ok (105, none) ∧
    runUnsafe Fbad (.ok resp200) = .ok (5, some [7]) :=
  ⟨(dispatch_validation_outcomes Fplain resp200 entryPlain 5 5 rfl rfl rfl).1 rfl,
   (dispatch_validation_outcomes Fok resp200 entryOk 5 5 rfl rfl rfl).2.1 okCodec 105 rfl rfl,
   ((dispatch_validation_outcomes Fbad resp200 entryBad 5 5 rfl rfl rfl).2.2 badCodec 7 [] rfl rfl).1⟩

/-- Claim C2: when the observed status has no registered handler and a
fallback thunk is set, the dispatch terminates successfully with
`(fallback(), no validation errors)`.  The conclusion holds for every
value of the body-parse outcome `jsonBody` — including one whose read
would fail — which captures that the response body is never read on
this path. -/
theorem fallback_dispatch {V E : Type} (F : Fetcher V E) (s : Nat) (rest : Unit → V)
    (hmiss : getEntry F.handlers s = none) (hrest : F.restHandler = some rest) :
    ∀ jsonBody : Except V V,
      runUnsafe (E := E) F (.ok ⟨s, jsonBody⟩) = .ok (rest (), none) := by
  intro j
  simp [runUnsafe, hmiss, hrest]

/-- Witness for C2: unhandled status 500 with a poisoned body
(`jsonBody = .error 9`, i.e. a body whose read would fail) still
produces the fallback value with no errors. -/
theorem fallback_dispatch_witness :
    runUnsafe Ffall (.ok ⟨500, .error 9⟩) = .ok (42, none) :=
  fallback_dispatch Ffall 500 (fun _ => 42) rfl rfl (.error 9)

/-- Claim C3: when the observed status has no registered handler and no
fallback is set, the dispatch fails with `HandlerNotSetError` carrying
that exact unresolved status code, for every body-parse outcome, and
this error kind is distinct from the transport, body-deserialization and
handler-execution kinds (validation problems are never reported as a
dispatch failure at all — they ride on the success side). -/
theorem missing_handler_failure {V E : Type} (F : Fetcher V E) (s : Nat)
    (hmiss : getEntry F.handlers s = none) (hrest : F.restHandler = none) :
    (∀ jsonBody : Except V V,
      runUnsafe (E := E) F (.ok ⟨s, jsonBody⟩) = .error (.handlerNotSet s)) ∧
    (∀ v : V, RunError.handlerNotSet (V := V) s ≠ .transport v) ∧
    (∀ v : V, RunError.handlerNotSet (V := V) s ≠ .jsonDeserialization v) ∧
    (∀ v : V, RunError.handlerNotSet (V := V) s ≠ .handlerExecution v) := by
  refine ⟨fun j => ?_, fun v => by simp, fun v => by simp, fun v => by simp⟩
  simp [runUnsafe, hmiss, hrest]

/-- Witness for C3: status 404 against a builder handling only 200 with
no fallback. -/
theorem missing_handler_failure_witness :
    runUnsafe Fplain (.ok ⟨404, .ok 0⟩) = .error (.handlerNotSet 404) :=
  (missing_handler_failure Fplain 404 rfl rfl).1 (.ok 0)

/-- Claim C7: when the injected fetch itself rejects, the dispatch
aborts with that transport failure carrying the rejection cause
verbatim, whatever the registered handlers, codecs and fallback are
(none of them runs — the result is the same for every builder), and the
transport kind is not converted into any of the other error kinds. -/
theorem transport_failure_verbatim {V E : Type} (F : Fetcher V E) (cause : V) :
    runUnsafe (E := E) F (.error cause) = .error (.transport cause) ∧
    (∀ s, RunError.transport (V := V) cause ≠ .handlerNotSet s) ∧
    (∀ v, RunError.transport (V := V) cause ≠ .jsonDeserialization v) ∧
    (∀ v, RunError.transport (V := V) cause ≠ .handlerExecution v) :=
  ⟨rfl, fun s => by simp, fun v => by simp, fun v => by simp⟩

/-- Claim C8: when a handler is resolved, the body parses, and the
resolved transform throws, the dispatch fails with the handler-execution
error wrapping the original thrown cause, and that kind is distinct from
the body-deserialization and handler-not-set kinds and from validation
diagnostics (which only ever appear on the success side). -/
theorem handler_throw_failure {V E : Type} (F : Fetcher V E) (resp : Resp V)
    (entry : Entry V E) (body cause : V)
    (hres : getEntry F.handlers resp.status = some entry)
    (hbody : resp.jsonBody = .ok body)
    (htr : entry.transform body = .error cause) :
    runUnsafe F (.ok resp) = .error (.handlerExecution cause) ∧
    (∀ v : V, RunError.handlerExecution (V := V) cause ≠ .jsonDeserialization v) ∧
    (∀ s : Nat, RunError.handlerExecution (V := V) cause ≠ .handlerNotSet s) ∧
    (∀ (v : V) (errs : List E),
      (Except.error (RunError.handlerExecution cause) :
        Except (RunError V) (V × Option (List E))) ≠ .ok (v, some errs)) := by
  refine ⟨?_, fun v => by simp, fun s => by simp, fun v errs => by simp⟩
  simp [runUnsafe, hres, hbody, htr]

/-- Witness for C8: a handler throwing `13` on a parsed body. -/
theorem handler_throw_failure_witness :
    runUnsafe Fthrow (.ok ⟨200, .ok 1⟩) = .error (.handlerExecution 13) :=
  (handler_throw_failure Fthrow ⟨200, .ok 1⟩ entryThrow 1 13 rfl rfl rfl).1

/-- Claim C6: dispatching after `map(f)` then `map(g)` yields, for any
fetch outcome, the same result as dispatching after the single
`map(x => g(f(x)))` applied to the same initial builder. -/
theorem map_compose_dispatch {V E : Type} (F : Fetcher V E) (f g : V → V)
    (fetchResult : Except V (Resp V)) :
    runUnsafe (Fetcher.map g (Fetcher.map f F)) fetchResult
      = runUnsafe (Fetcher.map (fun x => g (f x)) F) fetchResult := by
  rw [fetcher_map_map]

/-- Claim C9: `map(f)` rewrites the transform of every stored entry to
the old transform followed by `f` while leaving its codec unchanged, and
no entry escapes the rewrite: the lookup of any code in the rewritten
registry is exactly the pointwise rewrite of its old lookup (in
particular, codes absent before stay absent, and no entry keeps its old
transform). -/
theorem map_rewrites_every_entry {V E : Type} (F : Fetcher V E) (f : V → V) (code : Nat) :
    getEntry (Fetcher.map f F).handlers code
      = Option.map (fun e => ⟨fun v => Except.map f (e.transform v), e.codec⟩)
          (getEntry F.handlers code) := by
  show getEntry (F.handlers.map (fun p => (p.1, mapEntry f p.2))) code = _
  induction F.handlers with
  | nil => rfl
  | cons p t ih =>
    by_cases h : p.1 = code
    · simp [getEntry, h, mapEntry]
    · simp [getEntry, h, ih]

/-- Claim C10: registering a second handler for an already-registered
status code silently replaces the first registration — the resulting
builder is exactly the one obtained by registering only the second
handler, the lookup for that code yields the second `(transform, codec)`
pair, and every subsequent dispatch behaves as if the first registration
never happened (so the first transform is never invoked; `handle` is
total, so no error is raised on the duplicate). -/
theorem handle_overwrites_duplicate {V E : Type} (F : Fetcher V E) (code : Nat)
    (t1 t2 : V → Except V V) (k1 k2 : Option (V → Except (List E) V)) :
    Fetcher.handle (Fetcher.handle F code t1 k1) code t2 k2 = Fetcher.handle F code t2 k2 ∧
    getEntry (Fetcher.handle (Fetcher.handle F code t1 k1) code t2 k2).handlers code
      = some ⟨t2, k2⟩ ∧
    (∀ fetchResult, runUnsafe (Fetcher.handle (Fetcher.handle F code t1 k1) code t2 k2) fetchResult
        = runUnsafe (Fetcher.handle F code t2 k2) fetchResult) := by
  have h : Fetcher.handle (Fetcher.handle F code t1 k1) code t2 k2
      = Fetcher.handle F code t2 k2 := by
    simp [Fetcher.handle, setEntry_setEntry]
  refine ⟨h, ?_, fun fr => by rw [h]⟩
  rw [h]
  exact getEntry_setEntry_self F.handlers code ⟨t2, k2⟩

/-- Claim C4 is violated by the code (code bug): the extraction
condition actually evaluated by the default extractor of
`vNext/fetcher.ts:151-154` chooses JSON parsing whenever a content-type
header is present at all — for `content-type: text/plain` it picks JSON
(`vNextUsesJson = true`) where the content-type–driven strategy of the
spec picks raw text (`specUsesJson = false`); and `fetcher.ts:327`
unconditionally reads `response.json()`, so a handled dispatch whose
body is not valid JSON rejects with `JsonDeserializationError` instead
of falling back to raw text. -/
theorem content_type_extraction_bug :
    vNextUsesJson (some "text/plain") = true ∧
    specUsesJson (some "text/plain") = false ∧
    runUnsafe Fplain (.ok ⟨200, .error 7⟩) = .error (.jsonDeserialization 7) := by
  refine ⟨rfl, ?_, rfl⟩
  decide

/-- Claim C5 is violated by the code (code bug): `map` in
`fetcher.ts:285-291` rewrites the registered handlers but leaves
`restHandler` untouched, so after `map(Nat.succ)` a dispatch whose
status has no handler still returns the original fallback output `0`
rather than `Nat.succ 0 = 1` as the claim (and the declared return type
`Fetcher<TResult, B>` of `map`) requires. -/
theorem map_ignores_fallback_bug :
    runUnsafe (Fetcher.map Nat.succ Frest0) (.ok ⟨500, .ok 1⟩) = .ok (0, none) ∧
    (Except.ok (0, none) : Except (RunError Nat) (Nat × Option (List Nat)))
      ≠ .ok (Nat.succ 0, none) :=
  ⟨rfl, by simp⟩

end FetcherTs
